import Mathlib

/-!
Verification development for the YouTube tutorial quiz generator extension
(popup session controller and content script helpers).

The JavaScript source is shallowly embedded:
  * pure helpers (`isYouTubeVideoPage`, `extractVideoInfo`, the title
    clean-up regex, `formatTimestamp`, the per-option grading computation of
    `displayQuizResults`) become Lean functions on `String`/`Nat`;
  * the stateful popup controller becomes an explicit `AppState` record with
    a `step` function over an `Event` type; each asynchronous handler is
    split into its synchronous request-issuing prefix (a click event) and its
    response continuation (a response event).
All definitions are executable so concrete runs can be checked by `decide`.
-/

namespace QuizGen

/-! ## Whitespace and trimming

The source relies on the JavaScript regex class `\s` (in the title clean-up
regex) and on `String.prototype.trim` (for chat input).  Both accept the
common ASCII whitespace characters; we model that set. -/

/-- The whitespace characters recognised by the model (the ASCII part of the
JavaScript `\s` class and of `String.prototype.trim`). -/
def isWS (c : Char) : Bool :=
  c = ' ' || c = '\t' || c = '\n' || c = '\r' || c = '\x0b' || c = '\x0c'

/-- Model of JavaScript `String.prototype.trim`: drop leading and trailing
whitespace. -/
def jsTrim (s : String) : String :=
  String.mk (((s.toList.dropWhile isWS).reverse.dropWhile isWS).reverse)

/-! ## Title clean-up (`extractVideoInfo`, content script line 45)

The source runs `title.replace(/\s*-\s*YouTube$/, '')`: a non-global,
end-anchored replacement.  A position matches when the rest of the string is
whitespace*, a hyphen, whitespace*, then exactly `YouTube` at end-of-string;
`String.replace` removes the leftmost (hence longest) such suffix, once. -/

/-- Does this whole character list match `\s*-\s*YouTube$`, i.e. is it
whitespace*, then a hyphen, then whitespace*, then exactly `YouTube`? -/
def suffixPat (cs : List Char) : Bool :=
  match cs.dropWhile isWS with
  | '-' :: rest => rest.dropWhile isWS = "YouTube".toList
  | _ => false

/-- Scan left to right for the first position whose remaining suffix matches
`suffixPat`; delete from there (the leftmost regex match, removed once). -/
def cleanTitleAux : List Char → List Char
  | [] => []
  | c :: cs => if suffixPat (c :: cs) then [] else c :: cleanTitleAux cs

/-- Model of `title.replace(/\s*-\s*YouTube$/, '')` from `extractVideoInfo`. -/
def cleanTitle (title : String) : String :=
  String.mk (cleanTitleAux title.toList)

/-- Does some suffix of the list match `suffixPat`? (True exactly when the
clean-up regex finds a match.) -/
def endsWithPat : List Char → Bool
  | [] => false
  | c :: cs => suffixPat (c :: cs) || endsWithPat cs

/-! ## URL parsing (`isYouTubeVideoPage`, `extractVideoInfo`)

The source calls the browser's WHATWG `URL` constructor and reads
`hostname`, `pathname` and `searchParams`.  We model the fragment of that
parser the popup can meet: absolute hierarchical URLs of the shape
`scheme://host[:port][/path][?query][#fragment]`.  The host is lowercased,
an absent path reads as `/`, the query splits on `&` (empty segments
skipped) and each segment at its first `=` (a missing `=` gives value "").
Percent-decoding is not modelled (the keys used are plain). -/

structure URLObj where
  scheme : String
  hostname : String
  pathname : String
  searchParams : List (String × String)
deriving DecidableEq, Repr

/-- Split a character list at the first occurrence of `://`; the left part is
the candidate scheme. -/
def splitScheme : List Char → Option (List Char × List Char)
  | [] => none
  | ':' :: '/' :: '/' :: rest => some ([], rest)
  | c :: rest => (splitScheme rest).map (fun p => (c :: p.1, p.2))

/-- Split a query string on `&` into raw segments. -/
def querySegs : List Char → List (List Char)
  | [] => [[]]
  | '&' :: rest => [] :: querySegs rest
  | c :: rest =>
    match querySegs rest with
    | [] => [[c]]
    | s :: ss => (c :: s) :: ss

/-- One `key=value` segment; a segment without `=` has value `""`. -/
def parsePair (cs : List Char) : String × String :=
  (String.mk (cs.takeWhile (fun c => c ≠ '=')),
    match cs.dropWhile (fun c => c ≠ '=') with
    | '=' :: v => String.mk v
    | _ => "")

/-- The `searchParams` list of a raw query string. -/
def parseQuery (cs : List Char) : List (String × String) :=
  ((querySegs cs).filter (fun s => s ≠ [])).map parsePair

/-- Model of `new URL(url)` on the hierarchical fragment described above;
`none` models the constructor throwing. -/
def parseURLChars (cs : List Char) : Option URLObj :=
  match splitScheme cs with
  | none => none
  | some (schemeCs, rest) =>
    if schemeCs = [] || !schemeCs.all Char.isAlpha then none
    else
      let hostPort := rest.takeWhile (fun c => c ≠ '/' && c ≠ '?' && c ≠ '#')
      let afterHost := rest.dropWhile (fun c => c ≠ '/' && c ≠ '?' && c ≠ '#')
      let host := (hostPort.takeWhile (fun c => c ≠ ':')).map Char.toLower
      if host = [] then none
      else
        let path := afterHost.takeWhile (fun c => c ≠ '?' && c ≠ '#')
        let path := if path = [] then ['/'] else path
        let afterPath := afterHost.dropWhile (fun c => c ≠ '?' && c ≠ '#')
        let query :=
          match afterPath with
          | '?' :: qs => qs.takeWhile (fun c => c ≠ '#')
          | _ => []
        some { scheme := String.mk schemeCs
               hostname := String.mk host
               pathname := String.mk path
               searchParams := parseQuery query }

def parseURL (s : String) : Option URLObj :=
  parseURLChars s.toList

/-- Model of `urlObj.searchParams.has(key)`. -/
def searchParamsHas (ps : List (String × String)) (key : String) : Bool :=
  ps.any (fun p => p.1 = key)

/-- Model of `urlObj.searchParams.get(key)` (first value, `none` when the
parameter is absent). -/
def searchParamsGet (ps : List (String × String)) (key : String) : Option String :=
  (ps.find? (fun p => p.1 = key)).map (fun p => p.2)

/-- Source `isYouTubeVideoPage(url)` (popup lines 75-86): false for an empty
url (JavaScript `!url`), false when `new URL` throws, otherwise the
conjunction of the host, path and `v`-parameter checks. -/
def isYouTubeVideoPage (url : String) : Bool :=
  if url = "" then false
  else
    match parseURL url with
    | none => false
    | some u =>
      u.hostname = "www.youtube.com" && u.pathname = "/watch" &&
        searchParamsHas u.searchParams "v"

/-- The resolved video identity returned by `extractVideoInfo`. -/
structure VideoContext where
  videoId : String
  videoUrl : String
  title : String
  fullUrl : String
deriving DecidableEq, Repr

/-- Source `extractVideoInfo(url, title)` (popup lines 88-110): parse the
url (`none` on throw), read the `v` parameter; JavaScript `!videoId` is true
both for an absent parameter and for the empty string. -/
def extractVideoInfo (url title : String) : Option VideoContext :=
  match parseURL url with
  | none => none
  | some u =>
    match searchParamsGet u.searchParams "v" with
    | none => none
    | some videoId =>
      if videoId = "" then none
      else some { videoId := videoId, videoUrl := url
                  title := cleanTitle title, fullUrl := url }

/-- The first `v`-parameter value of a url, when the url parses. -/
def vParamValue (url : String) : Option String :=
  (parseURL url).bind (fun u => searchParamsGet u.searchParams "v")

/-! ## Timestamp formatting (`formatTimestamp`, popup lines 411-415) -/

/-- Model of `String.prototype.padStart(n, c)`. -/
def padStart (s : String) (n : Nat) (c : Char) : String :=
  if n ≤ s.length then s
  else String.mk (List.replicate (n - s.length) c) ++ s

/-- Source `formatTimestamp(seconds)`: floor-divide by 60, pad the remainder
to two digits. -/
def formatTimestamp (seconds : Nat) : String :=
  let minutes := seconds / 60
  let remainingSeconds := seconds % 60
  toString minutes ++ ":" ++ padStart (toString remainingSeconds) 2 '0'

/-- Spec-side description of the seconds field: the decimal rendering of
`n`, zero-padded to two digits. -/
def twoDigit (n : Nat) : String :=
  if n < 10 then "0" ++ toString n else toString n

/-! ## Quiz grading (`displayQuizResults`, popup lines 304-325) -/

inductive Mark
  | correct
  | incorrect
  | neutral
deriving DecidableEq, Repr

structure QuizQuestion where
  question : String
  options : List String
  correct_answer : Nat
deriving DecidableEq, Repr

/-- The class added to one option node by `displayQuizResults`: `correct`
when `optionIndex === correctAnswer`, else `incorrect` when
`optionIndex === userAnswer && userAnswer !== correctAnswer`, else nothing.
An unanswered question has `userAnswer = none` (JavaScript `undefined`). -/
def gradeOption (correctAnswer : Nat) (userAnswer : Option Nat) (optionIndex : Nat) : Mark :=
  if optionIndex = correctAnswer then Mark.correct
  else if userAnswer = some optionIndex && userAnswer ≠ some correctAnswer then Mark.incorrect
  else Mark.neutral

/-- The marks of one rendered question, option node by option node. -/
def gradeQuestion (q : QuizQuestion) (userAnswer : Option Nat) : List Mark :=
  (List.range q.options.length).map (gradeOption q.correct_answer userAnswer)

/-- JavaScript object lookup `userAnswers[index]` on the model's association
list. -/
def lookupAnswer (ua : List (Nat × Nat)) (i : Nat) : Option Nat :=
  (ua.find? (fun p => p.1 = i)).map (fun p => p.2)

/-- The whole grading pass of `displayQuizResults` over the rendered
questions. -/
def gradeAll (qs : List QuizQuestion) (ua : List (Nat × Nat)) : List (List Mark) :=
  (List.range qs.length).map (fun i =>
    match qs[i]? with
    | some q => gradeQuestion q (lookupAnswer ua i)
    | none => [])

/-! ## The popup controller as a state machine

`AppState` collects the fields of the `YouTubeQuizGenerator` instance plus
the DOM state its handlers read and write (panel visibility, the two
notification banners and their auto-hide timers, the chat transcript, the
loading overlay, the chat input).  Chat message ordinals model DOM child
positions (`appendChild` order).  An asynchronous handler splits into the
click event (its synchronous prefix up to the `await`) and a response event
(its continuation); the single in-flight main request and the single
in-flight chat request are `mainPending` and `chatPending`. -/

inductive Sender
  | user
  | bot
deriving DecidableEq, Repr

structure ChatMsg where
  sender : Sender
  text : String
  ordinal : Nat
deriving DecidableEq, Repr

inductive TimerAction
  | hideError
  | hideSuccess
deriving DecidableEq, Repr

structure Timer where
  delayMs : Nat
  action : TimerAction
deriving DecidableEq, Repr

inductive MainKind
  | quiz
  | verify
  | summary
  | topics
deriving DecidableEq, Repr

inductive MainPayload
  | quiz (questions : List QuizQuestion)
  | verifyAck
  | summary (text : String)
  | topics (ts : List (String × Nat))
deriving DecidableEq, Repr

structure AppState where
  currentVideo : Option VideoContext
  selectedDifficulty : String
  quizData : Option (List QuizQuestion)
  userAnswers : List (Nat × Nat)
  optionsLocked : Bool
  optionMarks : List (List Mark)
  resultsVisible : Bool
  quizVisible : Bool
  summaryVisible : Bool
  topicsVisible : Bool
  chatVisible : Bool
  submitBtnVisible : Bool
  summaryContent : String
  topicsContent : List (String × String)
  errVis : Bool
  sucVis : Bool
  errMsg : String
  sucMsg : String
  timers : List Timer
  loading : Bool
  chatInputValue : String
  chatInputDisabled : Bool
  sendBtnDisabled : Bool
  messages : List ChatMsg
  chatPending : Option Nat
  mainPending : Option MainKind
  requestLog : List String
deriving DecidableEq, Repr

/-- The state at popup open.  Constructor fields are from the source
constructor (lines 3-12).  Modelled from the spec: the popup markup is not
part of the source tree, so the initial DOM visibility follows the spec's
data model — no panel active, results container hidden, no notification
visible, chat input enabled. -/
def initState : AppState where
  currentVideo := none
  selectedDifficulty := "easy"
  quizData := none
  userAnswers := []
  optionsLocked := false
  optionMarks := []
  resultsVisible := false
  quizVisible := false
  summaryVisible := false
  topicsVisible := false
  chatVisible := false
  submitBtnVisible := true
  summaryContent := ""
  topicsContent := []
  errVis := false
  sucVis := false
  errMsg := ""
  sucMsg := ""
  timers := []
  loading := false
  chatInputValue := ""
  chatInputDisabled := false
  sendBtnDisabled := false
  messages := []
  chatPending := none
  mainPending := none
  requestLog := []

/-- Source `showError` (lines 142-154): show the error banner, hide the
success banner, schedule a 5000 ms auto-hide of the error banner. -/
def showError (s : AppState) (message : String) : AppState :=
  { s with errMsg := message, errVis := true, sucVis := false
           timers := s.timers ++ [⟨5000, TimerAction.hideError⟩] }

/-- Source `showSuccess` (lines 156-168): show the success banner, hide the
error banner, schedule a 3000 ms auto-hide of the success banner. -/
def showSuccess (s : AppState) (message : String) : AppState :=
  { s with sucMsg := message, sucVis := true, errVis := false
           timers := s.timers ++ [⟨3000, TimerAction.hideSuccess⟩] }

/-- Source `showLoading` (lines 127-140): the loading overlay plus the
pointer-events lock on the controls. -/
def showLoading (s : AppState) (b : Bool) : AppState :=
  { s with loading := b }

/-- Source `displayQuiz` (lines 224-276), panel and session effects: fresh
question/option nodes (so the old pointer-events lock and marks are gone),
`userAnswers` reset to empty, quiz panel shown, the other three hidden,
results container shown.  `quizData` itself is set by the caller
(`generateQuiz`), as in the source. -/
def displayQuiz (s : AppState) : AppState :=
  { s with userAnswers := [], optionMarks := [], optionsLocked := false
           resultsVisible := true, quizVisible := true
           summaryVisible := false, topicsVisible := false, chatVisible := false }

/-- Source `displaySummary` (lines 351-362). -/
def displaySummary (s : AppState) (summary : String) : AppState :=
  { s with summaryContent := summary
           resultsVisible := true, summaryVisible := true
           quizVisible := false, topicsVisible := false, chatVisible := false }

/-- Source `displayTopics` (lines 388-409): each topic is rendered with its
`formatTimestamp` output. -/
def displayTopics (s : AppState) (ts : List (String × Nat)) : AppState :=
  { s with topicsContent := ts.map (fun t => (t.1, formatTimestamp t.2))
           resultsVisible := true, topicsVisible := true
           quizVisible := false, summaryVisible := false, chatVisible := false }

/-- Source `displayQuizResults` (lines 304-325): mark every option of every
rendered question (the rendered questions are `quizData`, set together with
the question nodes by `displayQuiz`), disable further option clicks, hide
the submit button. -/
def displayQuizResults (s : AppState) : AppState :=
  match s.quizData with
  | none => s
  | some qs =>
    { s with optionMarks := gradeAll qs s.userAnswers
             optionsLocked := true, submitBtnVisible := false }

/-- Source `startChat` (lines 417-436). -/
def startChat (s : AppState) : AppState :=
  match s.currentVideo with
  | none => showError s "No video detected"
  | some _ =>
    showSuccess
      { s with resultsVisible := true, chatVisible := true
               quizVisible := false, summaryVisible := false, topicsVisible := false
               messages := [] }
      "Chat started! Ask questions about the video."

/-- Source `generateQuiz` (lines 197-222), synchronous prefix: the video
guard, the loading overlay, and the issued `/generate-quiz` request (payload
fields elided; the request count is what the claims need). -/
def generateQuiz (s : AppState) : AppState :=
  match s.currentVideo with
  | none => showError s "No video detected"
  | some _ =>
    let s1 := showLoading s true
    { s1 with requestLog := s1.requestLog ++ ["/generate-quiz"]
              mainPending := some MainKind.quiz }

/-- Source `generateSummary` (lines 327-349), synchronous prefix. -/
def generateSummary (s : AppState) : AppState :=
  match s.currentVideo with
  | none => showError s "No video detected"
  | some _ =>
    let s1 := showLoading s true
    { s1 with requestLog := s1.requestLog ++ ["/generate-summary"]
              mainPending := some MainKind.summary }

/-- Source `extractTopics` (lines 364-386), synchronous prefix. -/
def extractTopics (s : AppState) : AppState :=
  match s.currentVideo with
  | none => showError s "No video detected"
  | some _ =>
    let s1 := showLoading s true
    { s1 with requestLog := s1.requestLog ++ ["/generate-topics"]
              mainPending := some MainKind.topics }

/-- Source `submitQuiz` (lines 278-302), synchronous prefix: the validation
guard `!this.quizData || Object.keys(this.userAnswers).length === 0` runs
before `showLoading` and before any request is issued. -/
def submitQuiz (s : AppState) : AppState :=
  if s.quizData.isNone || s.userAnswers.isEmpty then
    showError s "Please answer at least one question before submitting"
  else
    let s1 := showLoading s true
    { s1 with requestLog := s1.requestLog ++ ["/verify-answers"]
              mainPending := some MainKind.verify }

/-- Continuation of whichever of the four main actions is awaiting its
response: on success run the action's display step then `showSuccess`; on
failure `showError` with the error message; in both cases the `finally`
clears the loading overlay, and the request is no longer in flight. -/
def mainResponse (s : AppState) (res : Except String MainPayload) : AppState :=
  match s.mainPending with
  | none => s
  | some k =>
    let s1 :=
      match res with
      | Except.error e => showError s e
      | Except.ok p =>
        match k, p with
        | MainKind.quiz, MainPayload.quiz qs =>
          showSuccess (displayQuiz { s with quizData := some qs })
            "Quiz generated successfully!"
        | MainKind.verify, MainPayload.verifyAck =>
          showSuccess (displayQuizResults s) "Quiz submitted successfully!"
        | MainKind.summary, MainPayload.summary t =>
          showSuccess (displaySummary s t) "Summary generated successfully!"
        | MainKind.topics, MainPayload.topics ts =>
          showSuccess (displayTopics s ts) "Topics extracted successfully!"
        | _, _ => s
    { s1 with loading := false, mainPending := none }

/-- JavaScript object assignment `this.userAnswers[index] = optionIndex`:
replace the existing binding or append a new one. -/
def insertAnswer : List (Nat × Nat) → Nat → Nat → List (Nat × Nat)
  | [], qi, oi => [(qi, oi)]
  | p :: ps, qi, oi => if p.1 = qi then (qi, oi) :: ps else p :: insertAnswer ps qi oi

/-- The option-click listener installed by `displayQuiz` (lines 249-258): an
option node exists only for a rendered question/option pair, and after
grading its pointer events are disabled. -/
def selectOption (s : AppState) (qi oi : Nat) : AppState :=
  if s.optionsLocked then s
  else
    match s.quizData with
    | none => s
    | some qs =>
      match qs[qi]? with
      | none => s
      | some q =>
        if oi < q.options.length then
          { s with userAnswers := insertAnswer s.userAnswers qi oi }
        else s

/-- Source `addChatMessage` (lines 479-487): append a message node; its
ordinal is its DOM child position. -/
def addChatMessage (s : AppState) (message : String) (sender : Sender) : AppState :=
  { s with messages := s.messages ++ [⟨sender, message, s.messages.length⟩] }

/-- Mutate the text content of the message node at one position, as
`botMessageDiv.textContent = ...` does; out of range models a node no longer
in the transcript (detached by `startChat`), whose mutation is invisible. -/
def setMsgText : List ChatMsg → Nat → String → List ChatMsg
  | [], _, _ => []
  | m :: ms, 0, t => { m with text := t } :: ms
  | m :: ms, Nat.succ n, t => m :: setMsgText ms n t

/-- Source `sendChatMessage` (lines 438-477), synchronous prefix: trim the
input, drop the send when the trimmed text is empty, append the user
message, clear and disable the input, append the empty bot placeholder, and
issue the `/chat` request. -/
def sendChatMessage (s : AppState) : AppState :=
  let message := jsTrim s.chatInputValue
  if message = "" then s
  else
    let s1 := addChatMessage s message Sender.user
    let s2 := { s1 with chatInputValue := ""
                        chatInputDisabled := true, sendBtnDisabled := true }
    let idx := s2.messages.length
    let s3 := addChatMessage s2 "" Sender.bot
    { s3 with chatPending := some idx
              requestLog := s3.requestLog ++ ["/chat"] }

/-- Continuation of `sendChatMessage`: write the answer (or the error text)
into the placeholder node, and in the `finally` re-enable the input; the
chat request is no longer in flight. -/
def chatResponse (s : AppState) (res : Except String String) : AppState :=
  match s.chatPending with
  | none => s
  | some idx =>
    let text :=
      match res with
      | Except.ok answer => answer
      | Except.error e => "Sorry, I encountered an error: " ++ e
    { s with messages := setMsgText s.messages idx text
             chatInputDisabled := false, sendBtnDisabled := false
             chatPending := none }

/-- A scheduled `setTimeout` callback fires: the timer is consumed and its
banner is hidden (the callbacks of lines 151-153 and 165-167 only ever set
`display = 'none'`). -/
def fireTimer (s : AppState) (i : Nat) : AppState :=
  match s.timers[i]? with
  | none => s
  | some tm =>
    let s1 :=
      match tm.action with
      | TimerAction.hideError => { s with errVis := false }
      | TimerAction.hideSuccess => { s with sucVis := false }
    { s1 with timers := s.timers.eraseIdx i }

/-- The UI events the popup can receive.  Click events on the five action
buttons are gated by the loading overlay's pointer-events lock; typing into
the chat input is impossible while the input is disabled.  `clickSendChat`
is deliberately not gated on the send button being enabled: the handler's
own empty-message check is what the single-flight claim is about. -/
inductive Event
  | clickGenerateQuiz
  | clickGenerateSummary
  | clickExtractTopics
  | clickStartChat
  | clickSubmitQuiz
  | mainResp (res : Except String MainPayload)
  | selectDifficulty (d : String)
  | selectOption (qi oi : Nat)
  | typeChatInput (text : String)
  | clickSendChat
  | chatResp (res : Except String String)
  | fireTimer (i : Nat)

/-- One step of the popup controller. -/
def step (s : AppState) (e : Event) : AppState :=
  match e with
  | Event.clickGenerateQuiz => if s.loading then s else generateQuiz s
  | Event.clickGenerateSummary => if s.loading then s else generateSummary s
  | Event.clickExtractTopics => if s.loading then s else extractTopics s
  | Event.clickStartChat => if s.loading then s else startChat s
  | Event.clickSubmitQuiz => if s.loading then s else submitQuiz s
  | Event.mainResp r => mainResponse s r
  | Event.selectDifficulty d => if s.loading then s else { s with selectedDifficulty := d }
  | Event.selectOption qi oi => if s.loading then s else selectOption s qi oi
  | Event.typeChatInput t => if s.chatInputDisabled then s else { s with chatInputValue := t }
  | Event.clickSendChat => sendChatMessage s
  | Event.chatResp r => chatResponse s r
  | Event.fireTimer i => fireTimer s i

/-- A run of the popup from open, under a list of events. -/
def run (evs : List Event) : AppState :=
  evs.foldl step initState

/-! ## Helper lemmas -/

theorem mk_toList (s : String) : String.mk s.toList = s := by
  cases s
  rfl

theorem toList_mk (cs : List Char) : (String.mk cs).toList = cs := rfl

/-- When no suffix of the list matches the clean-up pattern, the scan leaves
the list unchanged. -/
theorem cleanTitleAux_of_no_pat (cs : List Char) (h : endsWithPat cs = false) :
    cleanTitleAux cs = cs := by
  induction cs with
  | nil => rfl
  | cons c cs ih =>
    rw [endsWithPat, Bool.or_eq_false_iff] at h
    rw [cleanTitleAux, if_neg (by simp [h.1]), ih h.2]

/-- A present query parameter has a retrievable value. -/
theorem searchParamsGet_of_has (ps : List (String × String)) (k : String)
    (h : searchParamsHas ps k = true) : ∃ v, searchParamsGet ps k = some v := by
  unfold searchParamsHas at h
  unfold searchParamsGet
  rw [List.any_eq_true] at h
  obtain ⟨p, hp, hk⟩ := h
  have : (ps.find? (fun p => p.1 = k)).isSome := by
    rw [List.find?_isSome]
    exact ⟨p, hp, hk⟩
  obtain ⟨q, hq⟩ := Option.isSome_iff_exists.mp this
  exact ⟨q.2, by rw [hq]; rfl⟩

/-- The two-digit padding of the seconds field agrees with its spec-side
description on every remainder below 60. -/
theorem padStart_toString_twoDigit :
    ∀ n : Fin 60, padStart (toString n.val) 2 '0' = twoDigit n.val := by decide

/-- Writing into the message node appended last replaces its text and keeps
its position, sender and ordinal. -/
theorem setMsgText_last (xs : List ChatMsg) (m : ChatMsg) (t : String) :
    setMsgText (xs ++ [m]) xs.length t = xs ++ [{ m with text := t }] := by
  induction xs with
  | nil => rfl
  | cons x xs ih => simp [setMsgText, ih]

/-! ## Invariants of the controller -/

/-- While a chat request is in flight, the chat input is cleared and the
input and send button are disabled (set by `sendChatMessage` before the
request is issued, undone only by its continuation). -/
def ChatInv (s : AppState) : Prop :=
  s.chatPending.isSome = true →
    s.chatInputValue = "" ∧ s.chatInputDisabled = true ∧ s.sendBtnDisabled = true

/-- Every scheduled timer is one of the two auto-hide timers: the 5000 ms
error hide or the 3000 ms success hide. -/
def timersOK (l : List Timer) : Prop :=
  ∀ tm ∈ l, tm = ⟨5000, TimerAction.hideError⟩ ∨ tm = ⟨3000, TimerAction.hideSuccess⟩

/-- The error and success banners are never visible together, and only
hide-timers are ever scheduled. -/
def NotifInv (s : AppState) : Prop :=
  ¬(s.errVis = true ∧ s.sucVis = true) ∧ timersOK s.timers

/-- The results container is visible exactly when some content panel is. -/
def PanelInv (s : AppState) : Prop :=
  s.resultsVisible = (s.quizVisible || s.summaryVisible || s.topicsVisible || s.chatVisible)

/-- How many of the four content panels are visible. -/
def panelCount (s : AppState) : Nat :=
  (if s.quizVisible then 1 else 0) + (if s.summaryVisible then 1 else 0) +
    (if s.topicsVisible then 1 else 0) + (if s.chatVisible then 1 else 0)

theorem timersOK_append_err {l : List Timer} (h : timersOK l) :
    timersOK (l ++ [⟨5000, TimerAction.hideError⟩]) := by
  intro tm hm
  rcases List.mem_append.mp hm with hm | hm
  · exact h tm hm
  · simp at hm
    exact Or.inl hm

theorem timersOK_append_suc {l : List Timer} (h : timersOK l) :
    timersOK (l ++ [⟨3000, TimerAction.hideSuccess⟩]) := by
  intro tm hm
  rcases List.mem_append.mp hm with hm | hm
  · exact h tm hm
  · simp at hm
    exact Or.inr hm

theorem notifInv_showError (s : AppState) (m : String) (h : timersOK s.timers) :
    NotifInv (showError s m) := by
  refine ⟨by simp [showError], ?_⟩
  exact timersOK_append_err h

theorem notifInv_showSuccess (s : AppState) (m : String) (h : timersOK s.timers) :
    NotifInv (showSuccess s m) := by
  refine ⟨by simp [showSuccess], ?_⟩
  exact timersOK_append_suc h

theorem notifInv_showSuccess_dqr (s : AppState) (m : String) (h : timersOK s.timers) :
    NotifInv (showSuccess (displayQuizResults s) m) := by
  unfold displayQuizResults
  split
  · exact notifInv_showSuccess _ _ h
  · exact notifInv_showSuccess _ _ h

/-- `ChatInv` is preserved by every event. -/
theorem chatInv_preserved (s : AppState) (e : Event) (h : ChatInv s) :
    ChatInv (step s e) := by
  have hfields : ∀ t : AppState, t.chatPending = s.chatPending →
      t.chatInputValue = s.chatInputValue → t.chatInputDisabled = s.chatInputDisabled →
      t.sendBtnDisabled = s.sendBtnDisabled → ChatInv t := by
    intro t hp hv hd hb hps
    rw [hp] at hps
    obtain ⟨a, b, c⟩ := h hps
    exact ⟨by rw [hv, a], by rw [hd, b], by rw [hb, c]⟩
  cases e with
  | clickGenerateQuiz =>
    simp only [step, generateQuiz]
    split
    · exact h
    · split
      · exact hfields _ rfl rfl rfl rfl
      · exact hfields _ rfl rfl rfl rfl
  | clickGenerateSummary =>
    simp only [step, generateSummary]
    split
    · exact h
    · split
      · exact hfields _ rfl rfl rfl rfl
      · exact hfields _ rfl rfl rfl rfl
  | clickExtractTopics =>
    simp only [step, extractTopics]
    split
    · exact h
    · split
      · exact hfields _ rfl rfl rfl rfl
      · exact hfields _ rfl rfl rfl rfl
  | clickStartChat =>
    simp only [step, startChat]
    split
    · exact h
    · split
      · exact hfields _ rfl rfl rfl rfl
      · exact hfields _ rfl rfl rfl rfl
  | clickSubmitQuiz =>
    simp only [step, submitQuiz]
    split
    · exact h
    · split
      · exact hfields _ rfl rfl rfl rfl
      · exact hfields _ rfl rfl rfl rfl
  | mainResp r =>
    simp only [step, mainResponse]
    split
    · exact h
    · split
      · exact hfields _ rfl rfl rfl rfl
      · split <;>
          first
          | exact hfields _ rfl rfl rfl rfl
          | (unfold displayQuizResults
             split <;> exact hfields _ rfl rfl rfl rfl)
  | selectDifficulty d =>
    simp only [step]
    split
    · exact h
    · exact hfields _ rfl rfl rfl rfl
  | selectOption qi oi =>
    simp only [step, selectOption]
    split
    · exact h
    · split
      · exact h
      · split
        · exact h
        · split
          · exact h
          · split
            · exact hfields _ rfl rfl rfl rfl
            · exact h
  | typeChatInput t =>
    simp only [step]
    split
    · exact h
    · next hnd =>
      intro hps
      exact absurd (h hps).2.1 hnd
  | clickSendChat =>
    simp only [step, sendChatMessage]
    split
    · exact h
    · intro _
      exact ⟨rfl, rfl, rfl⟩
  | chatResp r =>
    simp only [step, chatResponse]
    split
    · exact h
    · intro hps
      exact absurd hps (by simp)
  | fireTimer i =>
    simp only [step, fireTimer]
    split
    · exact h
    · split
      · exact hfields _ rfl rfl rfl rfl
      · exact hfields _ rfl rfl rfl rfl

/-- `NotifInv` is preserved by every event. -/
theorem notifInv_preserved (s : AppState) (e : Event) (h : NotifInv s) :
    NotifInv (step s e) := by
  have hfields : ∀ t : AppState, t.errVis = s.errVis → t.sucVis = s.sucVis →
      t.timers = s.timers → NotifInv t := by
    intro t he hs ht
    exact ⟨by rw [he, hs]; exact h.1, by rw [ht]; exact h.2⟩
  cases e with
  | clickGenerateQuiz =>
    simp only [step, generateQuiz]
    split
    · exact h
    · split
      · exact notifInv_showError _ _ h.2
      · exact hfields _ rfl rfl rfl
  | clickGenerateSummary =>
    simp only [step, generateSummary]
    split
    · exact h
    · split
      · exact notifInv_showError _ _ h.2
      · exact hfields _ rfl rfl rfl
  | clickExtractTopics =>
    simp only [step, extractTopics]
    split
    · exact h
    · split
      · exact notifInv_showError _ _ h.2
      · exact hfields _ rfl rfl rfl
  | clickStartChat =>
    simp only [step, startChat]
    split
    · exact h
    · split
      · exact notifInv_showError _ _ h.2
      · exact notifInv_showSuccess _ _ h.2
  | clickSubmitQuiz =>
    simp only [step, submitQuiz]
    split
    · exact h
    · split
      · exact notifInv_showError _ _ h.2
      · exact hfields _ rfl rfl rfl
  | mainResp r =>
    cases hmp : s.mainPending with
    | none => simpa [step, mainResponse, hmp] using h
    | some k =>
      cases r with
      | error e =>
        simp only [step, mainResponse, hmp]
        exact notifInv_showError s e h.2
      | ok p =>
        simp only [step, mainResponse, hmp]
        cases k with
        | quiz =>
          cases p with
          | quiz qs =>
            exact notifInv_showSuccess (displayQuiz { s with quizData := some qs })
              "Quiz generated successfully!" h.2
          | verifyAck => exact h
          | summary t => exact h
          | topics ts => exact h
        | verify =>
          cases p with
          | quiz qs => exact h
          | verifyAck =>
            exact notifInv_showSuccess_dqr s "Quiz submitted successfully!" h.2
          | summary t => exact h
          | topics ts => exact h
        | summary =>
          cases p with
          | quiz qs => exact h
          | verifyAck => exact h
          | summary t =>
            exact notifInv_showSuccess (displaySummary s t)
              "Summary generated successfully!" h.2
          | topics ts => exact h
        | topics =>
          cases p with
          | quiz qs => exact h
          | verifyAck => exact h
          | summary t => exact h
          | topics ts =>
            exact notifInv_showSuccess (displayTopics s ts)
              "Topics extracted successfully!" h.2
  | selectDifficulty d =>
    simp only [step]
    split
    · exact h
    · exact hfields _ rfl rfl rfl
  | selectOption qi oi =>
    simp only [step, selectOption]
    split
    · exact h
    · split
      · exact h
      · split
        · exact h
        · split
          · exact h
          · split
            · exact hfields _ rfl rfl rfl
            · exact h
  | typeChatInput t =>
    simp only [step]
    split
    · exact h
    · exact hfields _ rfl rfl rfl
  | clickSendChat =>
    simp only [step, sendChatMessage]
    split
    · exact h
    · exact hfields _ rfl rfl rfl
  | chatResp r =>
    simp only [step, chatResponse]
    split
    · exact h
    · exact hfields _ rfl rfl rfl
  | fireTimer i =>
    simp only [step, fireTimer]
    split
    · exact h
    · split
      · exact ⟨by simp, fun tm hm =>
          h.2 tm ((List.eraseIdx_sublist s.timers i).subset hm)⟩
      · exact ⟨by simp, fun tm hm =>
          h.2 tm ((List.eraseIdx_sublist s.timers i).subset hm)⟩

theorem panelInv_dqr (s : AppState) (m : String) (h : PanelInv s) :
    PanelInv (showSuccess (displayQuizResults s) m) := by
  unfold displayQuizResults
  split
  · exact h
  · exact h

/-- `PanelInv` is preserved by every event. -/
theorem panelInv_preserved (s : AppState) (e : Event) (h : PanelInv s) :
    PanelInv (step s e) := by
  have hfields : ∀ t : AppState, t.resultsVisible = s.resultsVisible →
      t.quizVisible = s.quizVisible → t.summaryVisible = s.summaryVisible →
      t.topicsVisible = s.topicsVisible → t.chatVisible = s.chatVisible →
      PanelInv t := by
    intro t h1 h2 h3 h4 h5
    unfold PanelInv
    rw [h1, h2, h3, h4, h5]
    exact h
  cases e with
  | clickGenerateQuiz =>
    simp only [step, generateQuiz]
    split
    · exact h
    · split
      · exact hfields _ rfl rfl rfl rfl rfl
      · exact hfields _ rfl rfl rfl rfl rfl
  | clickGenerateSummary =>
    simp only [step, generateSummary]
    split
    · exact h
    · split
      · exact hfields _ rfl rfl rfl rfl rfl
      · exact hfields _ rfl rfl rfl rfl rfl
  | clickExtractTopics =>
    simp only [step, extractTopics]
    split
    · exact h
    · split
      · exact hfields _ rfl rfl rfl rfl rfl
      · exact hfields _ rfl rfl rfl rfl rfl
  | clickStartChat =>
    simp only [step, startChat]
    split
    · exact h
    · split
      · exact hfields _ rfl rfl rfl rfl rfl
      · rfl
  | clickSubmitQuiz =>
    simp only [step, submitQuiz]
    split
    · exact h
    · split
      · exact hfields _ rfl rfl rfl rfl rfl
      · exact hfields _ rfl rfl rfl rfl rfl
  | mainResp r =>
    cases hmp : s.mainPending with
    | none => simpa [step, mainResponse, hmp] using h
    | some k =>
      cases r with
      | error e =>
        simp only [step, mainResponse, hmp]
        exact hfields _ rfl rfl rfl rfl rfl
      | ok p =>
        simp only [step, mainResponse, hmp]
        cases k with
        | quiz =>
          cases p with
          | quiz qs => rfl
          | verifyAck => exact h
          | summary t => exact h
          | topics ts => exact h
        | verify =>
          cases p with
          | quiz qs => exact h
          | verifyAck => exact panelInv_dqr s "Quiz submitted successfully!" h
          | summary t => exact h
          | topics ts => exact h
        | summary =>
          cases p with
          | quiz qs => exact h
          | verifyAck => exact h
          | summary t => rfl
          | topics ts => exact h
        | topics =>
          cases p with
          | quiz qs => exact h
          | verifyAck => exact h
          | summary t => exact h
          | topics ts => rfl
  | selectDifficulty d =>
    simp only [step]
    split
    · exact h
    · exact hfields _ rfl rfl rfl rfl rfl
  | selectOption qi oi =>
    simp only [step, selectOption]
    split
    · exact h
    · split
      · exact h
      · split
        · exact h
        · split
          · exact h
          · split
            · exact hfields _ rfl rfl rfl rfl rfl
            · exact h
  | typeChatInput t =>
    simp only [step]
    split
    · exact h
    · exact hfields _ rfl rfl rfl rfl rfl
  | clickSendChat =>
    simp only [step, sendChatMessage]
    split
    · exact h
    · exact hfields _ rfl rfl rfl rfl rfl
  | chatResp r =>
    simp only [step, chatResponse]
    split
    · exact h
    · exact hfields _ rfl rfl rfl rfl rfl
  | fireTimer i =>
    simp only [step, fireTimer]
    split
    · exact h
    · split
      · exact hfields _ rfl rfl rfl rfl rfl
      · exact hfields _ rfl rfl rfl rfl rfl

/-- An invariant that holds initially and is preserved by `step` holds after
every run. -/
theorem run_preserves (P : AppState → Prop)
    (hstep : ∀ s e, P s → P (step s e)) (h0 : P initState) :
    ∀ evs : List Event, P (run evs) := by
  have hfold : ∀ (l : List Event) (s : AppState), P s → P (l.foldl step s) := by
    intro l
    induction l with
    | nil => exact fun s hs => hs
    | cons e l ih => exact fun s hs => ih _ (hstep s e hs)
  exact fun evs => hfold evs initState h0

/-! ## Claims -/

/-- C9: `formatTimestamp` maps a non-negative integer number of seconds `s`
to `toString (s / 60) ++ ":" ++` the two-digit zero-padded rendering of
`s % 60`; in particular `125 ↦ "2:05"`, `59 ↦ "0:59"`, `0 ↦ "0:00"`. -/
theorem formatTimestamp_spec :
    (∀ s : Nat, formatTimestamp s = toString (s / 60) ++ ":" ++ twoDigit (s % 60)) ∧
    formatTimestamp 125 = "2:05" ∧ formatTimestamp 59 = "0:59" ∧
    formatTimestamp 0 = "0:00" := by
  refine ⟨fun s => ?_, by decide, by decide, by decide⟩
  have h : s % 60 < 60 := Nat.mod_lt _ (by decide)
  have hp := padStart_toString_twoDigit ⟨s % 60, h⟩
  simp only [formatTimestamp]
  rw [hp]

/-- The valid-page check, unfolded: true exactly when the url parses with
the canonical host and path and a present `v` parameter. -/
theorem valid_page_iff (url : String) :
    isYouTubeVideoPage url = true ↔
      ∃ u, parseURL url = some u ∧ u.hostname = "www.youtube.com" ∧
        u.pathname = "/watch" ∧ searchParamsHas u.searchParams "v" = true := by
  unfold isYouTubeVideoPage
  by_cases h : url = ""
  · subst h
    have hp : parseURL "" = none := rfl
    simp [hp]
  · rw [if_neg h]
    cases hp : parseURL url with
    | none => simp
    | some u =>
      simp only [Bool.and_eq_true, decide_eq_true_eq, Option.some.injEq]
      constructor
      · rintro ⟨⟨h1, h2⟩, h3⟩
        exact ⟨u, rfl, h1, h2, h3⟩
      · rintro ⟨v, rfl, h1, h2, h3⟩
        exact ⟨⟨h1, h2⟩, h3⟩

/-- C2: a url is classified as a valid video page exactly when it parses,
its hostname is `www.youtube.com`, its pathname is `/watch`, and a `v`
query parameter is present; any deviation classifies it as invalid. -/
theorem isYouTubeVideoPage_iff (url : String) :
    isYouTubeVideoPage url = true ↔
      ∃ u, parseURL url = some u ∧ u.hostname = "www.youtube.com" ∧
        u.pathname = "/watch" ∧ searchParamsHas u.searchParams "v" = true :=
  valid_page_iff url

/-- C2 witness: the classification at concrete urls. -/
theorem isYouTubeVideoPage_iff_witness :
    isYouTubeVideoPage "https://www.youtube.com/watch?v=dQw4" = true ∧
    isYouTubeVideoPage "https://www.youtube.com/playlist?v=dQw4" = false := by decide

/-- C3 counterexample: title suffix stripping is not idempotent — stripping
`"x - YouTube - YouTube"` once gives `"x - YouTube"`, and stripping that
again gives `"x"`. -/
theorem cleanTitle_not_idempotent :
    cleanTitle "x - YouTube - YouTube" = "x - YouTube" ∧
    cleanTitle (cleanTitle "x - YouTube - YouTube") = "x" ∧
    cleanTitle (cleanTitle "x - YouTube - YouTube") ≠
      cleanTitle "x - YouTube - YouTube" := by decide

/-- C3 (amended): the clean-up removes the longest trailing segment matching
whitespace*, a hyphen, whitespace*, `YouTube` — case-sensitively and
end-anchored — applied once per call; a title with no such trailing segment
is left unchanged, so stripping is idempotent exactly on titles whose
stripped form no longer ends in such a segment. -/
theorem cleanTitle_strip_once (t : String) :
    (endsWithPat t.toList = false → cleanTitle t = t) ∧
    (endsWithPat (cleanTitle t).toList = false →
      cleanTitle (cleanTitle t) = cleanTitle t) ∧
    cleanTitle "Video - youtube" = "Video - youtube" ∧
    cleanTitle "Video - YouTube more" = "Video - YouTube more" ∧
    cleanTitle "Video - YouTube" = "Video" := by
  refine ⟨fun h => ?_, fun h => ?_, by decide, by decide, by decide⟩
  · rw [cleanTitle, cleanTitleAux_of_no_pat _ h, mk_toList]
  · rw [cleanTitle, cleanTitleAux_of_no_pat _ h, mk_toList]

/-- C1: grading.  After a successful verify-answers response the option
marks are the grading pass over the stored quiz and answers; and for every
question with correct index `c` and user selection `u`, the option at index
`c` is marked correct, the option at `u` is marked incorrect exactly when
`u` differs from `c`, and every other option is neutral. -/
theorem grading_marks :
    (∀ (s : AppState) (qs : List QuizQuestion),
      s.mainPending = some MainKind.verify → s.quizData = some qs →
      (step s (Event.mainResp (Except.ok MainPayload.verifyAck))).optionMarks =
        gradeAll qs s.userAnswers) ∧
    (∀ (q : QuizQuestion) (ua : Option Nat) (oi : Nat), oi < q.options.length →
      (gradeQuestion q ua)[oi]? = some (gradeOption q.correct_answer ua oi) ∧
      (gradeOption q.correct_answer ua oi = Mark.correct ↔ oi = q.correct_answer) ∧
      (gradeOption q.correct_answer ua oi = Mark.incorrect ↔
        (ua = some oi ∧ oi ≠ q.correct_answer)) ∧
      (gradeOption q.correct_answer ua oi = Mark.neutral ↔
        (oi ≠ q.correct_answer ∧ ua ≠ some oi))) := by
  constructor
  · intro s qs h1 h2
    simp [step, mainResponse, h1, displayQuizResults, h2, showSuccess]
  · intro q ua oi h
    refine ⟨?_, ?_, ?_, ?_⟩
    · simp [gradeQuestion, List.getElem?_map, List.getElem?_range, h]
    · by_cases h1 : oi = q.correct_answer
      · simp [gradeOption, h1]
      · by_cases h2 : ua = some oi
        · have h3 : ua ≠ some q.correct_answer := by
            rw [h2]
            simp [h1]
          simp [gradeOption, h1, h2, h3]
        · simp [gradeOption, h1, h2]
    · by_cases h1 : oi = q.correct_answer
      · simp [gradeOption, h1]
      · by_cases h2 : ua = some oi
        · have h3 : ua ≠ some q.correct_answer := by
            rw [h2]
            simp [h1]
          simp [gradeOption, h1, h2, h3]
        · simp [gradeOption, h1, h2]
    · by_cases h1 : oi = q.correct_answer
      · simp [gradeOption, h1]
      · by_cases h2 : ua = some oi
        · have h3 : ua ≠ some q.correct_answer := by
            rw [h2]
            simp [h1]
          simp [gradeOption, h1, h2, h3]
        · simp [gradeOption, h1, h2]

/-- C10 counterexample: `"https://www.youtube.com/watch?v="` passes the
valid-page check (the `v` parameter is present) but `extractVideoInfo`
returns no context (its value is the empty string, and JavaScript `!""` is
true), so the failure branch of `loadVideoInfo` is reachable after the
valid-page check. -/
theorem extract_fails_after_valid_page :
    isYouTubeVideoPage "https://www.youtube.com/watch?v=" = true ∧
    extractVideoInfo "https://www.youtube.com/watch?v=" "Some Title" = none := by
  decide

/-- C10 (amended): when the valid-page check passes and the `v` parameter's
value is non-empty, `extractVideoInfo` returns a video context. -/
theorem extract_succeeds_after_valid_page (url title : String)
    (h1 : isYouTubeVideoPage url = true) (h2 : vParamValue url ≠ some "") :
    (extractVideoInfo url title).isSome = true := by
  obtain ⟨u, hu, _, _, hv⟩ := (valid_page_iff url).mp h1
  obtain ⟨v, hg⟩ := searchParamsGet_of_has u.searchParams "v" hv
  have hvv : vParamValue url = some v := by
    simp [vParamValue, hu, hg]
  have hne : v ≠ "" := by
    intro hc
    exact h2 (by rw [hvv, hc])
  simp [extractVideoInfo, hu, hg, hne]

/-- C10 witness: a concrete valid watch url with a non-empty video id
yields a context. -/
theorem extract_succeeds_after_valid_page_witness :
    (extractVideoInfo "https://www.youtube.com/watch?v=dQw4" "My Video - YouTube").isSome
      = true :=
  extract_succeeds_after_valid_page "https://www.youtube.com/watch?v=dQw4"
    "My Video - YouTube" (by decide) (by decide)

/-- C8: clicking submit with an empty answer mapping aborts before any
request: the request log is unchanged, the validation message is surfaced
as an error notification, no loading starts, no request becomes pending,
and the quiz, chat and panel state are untouched. -/
theorem submit_empty_validation (s : AppState)
    (h1 : s.userAnswers = []) (h2 : s.loading = false) :
    (step s Event.clickSubmitQuiz).requestLog = s.requestLog ∧
    (step s Event.clickSubmitQuiz).errVis = true ∧
    (step s Event.clickSubmitQuiz).errMsg =
      "Please answer at least one question before submitting" ∧
    (step s Event.clickSubmitQuiz).sucVis = false ∧
    (step s Event.clickSubmitQuiz).mainPending = s.mainPending ∧
    (step s Event.clickSubmitQuiz).loading = false ∧
    (step s Event.clickSubmitQuiz).quizData = s.quizData ∧
    (step s Event.clickSubmitQuiz).userAnswers = s.userAnswers ∧
    (step s Event.clickSubmitQuiz).optionMarks = s.optionMarks ∧
    (step s Event.clickSubmitQuiz).messages = s.messages ∧
    (step s Event.clickSubmitQuiz).quizVisible = s.quizVisible ∧
    (step s Event.clickSubmitQuiz).resultsVisible = s.resultsVisible := by
  simp [step, h2, submitQuiz, h1, showError]

/-- C8 witness: submitting at popup open (no answers yet) leaves the
request log empty and surfaces the error banner. -/
theorem submit_empty_validation_witness :
    (step initState Event.clickSubmitQuiz).requestLog = initState.requestLog ∧
    (step initState Event.clickSubmitQuiz).errVis = true :=
  ⟨(submit_empty_validation initState rfl rfl).1,
    (submit_empty_validation initState rfl rfl).2.1⟩

/-- C5: single-flight chat.  In every reachable state a pending chat
request means the input is cleared and disabled; and invoking the send
handler while a chat request is pending is a no-op — the whole state (in
particular the transcript and the request log) is unchanged. -/
theorem chat_single_flight :
    (∀ evs : List Event, ChatInv (run evs)) ∧
    (∀ s : AppState, ChatInv s → s.chatPending.isSome = true →
      step s Event.clickSendChat = s) := by
  constructor
  · exact run_preserves ChatInv chatInv_preserved (fun hc => absurd hc (by decide))
  · intro s hinv hp
    obtain ⟨hv, _, _⟩ := hinv hp
    have hempty : jsTrim s.chatInputValue = "" := by rw [hv]; rfl
    simp [step, sendChatMessage, hempty]

/-- C4 counterexample: sending the literal text `" hi "` produces a user
message whose text is the trimmed `"hi"`, not the sent text itself, so the
transcript is not the pair `[(user, " hi "), (bot, answer)]`. -/
theorem chat_transcript_literal_counterexample :
    (step (step { initState with chatInputValue := " hi " } Event.clickSendChat)
        (Event.chatResp (Except.ok "hello"))).messages =
      [⟨Sender.user, "hi", 0⟩, ⟨Sender.bot, "hello", 1⟩] ∧
    (step (step { initState with chatInputValue := " hi " } Event.clickSendChat)
        (Event.chatResp (Except.ok "hello"))).messages ≠
      [⟨Sender.user, " hi ", 0⟩, ⟨Sender.bot, "hello", 1⟩] := by decide

/-- C4 (amended): sending input whose trimmed text is non-empty, with no
chat request in flight, appends the user message with the trimmed text and
the empty bot placeholder at the next two ordinals and issues one `/chat`
request; when the call resolves, only the placeholder's text is replaced by
the answer — its position and ordinal are unchanged — and no further
request is issued. -/
theorem chat_transcript_pair (s : AppState) (t a : String)
    (h0 : s.chatPending = none) (h1 : s.chatInputValue = t) (h2 : jsTrim t ≠ "") :
    (step s Event.clickSendChat).messages =
      s.messages ++ [⟨Sender.user, jsTrim t, s.messages.length⟩,
        ⟨Sender.bot, "", s.messages.length + 1⟩] ∧
    (step s Event.clickSendChat).requestLog = s.requestLog ++ ["/chat"] ∧
    (step s Event.clickSendChat).chatPending = some (s.messages.length + 1) ∧
    (step (step s Event.clickSendChat) (Event.chatResp (Except.ok a))).messages =
      s.messages ++ [⟨Sender.user, jsTrim t, s.messages.length⟩,
        ⟨Sender.bot, a, s.messages.length + 1⟩] ∧
    (step (step s Event.clickSendChat) (Event.chatResp (Except.ok a))).chatPending =
      none ∧
    (step (step s Event.clickSendChat) (Event.chatResp (Except.ok a))).requestLog =
      s.requestLog ++ ["/chat"] := by
  subst h1
  have key := setMsgText_last
    (s.messages ++ [⟨Sender.user, jsTrim s.chatInputValue, s.messages.length⟩])
    ⟨Sender.bot, "", s.messages.length + 1⟩ a
  simp only [List.length_append, List.length_singleton, List.append_assoc,
    List.singleton_append, List.cons_append, List.nil_append] at key
  simp [step, sendChatMessage, h2, addChatMessage, chatResponse, key]

/-- C4 witness: a concrete send/resolve round trip from popup open. -/
theorem chat_transcript_pair_witness :
    (step (step { initState with chatInputValue := "hi" } Event.clickSendChat)
        (Event.chatResp (Except.ok "hello"))).messages =
      { initState with chatInputValue := "hi" }.messages ++
        [⟨Sender.user, jsTrim "hi", { initState with chatInputValue := "hi" }.messages.length⟩,
          ⟨Sender.bot, "hello",
            { initState with chatInputValue := "hi" }.messages.length + 1⟩] :=
  (chat_transcript_pair { initState with chatInputValue := "hi" } "hi" "hello"
    rfl rfl (by decide)).2.2.2.1

/-- C6: after a successful generate-quiz, generate-summary or
generate-topics response and after a start-chat click, exactly one content
panel is visible — the activated one — with the results container shown;
and the invariant that the results container is visible exactly when some
panel is active holds initially and is preserved by every event. -/
theorem panels_exclusive :
    (∀ (s : AppState) (qs : List QuizQuestion), s.mainPending = some MainKind.quiz →
      panelCount (step s (Event.mainResp (Except.ok (MainPayload.quiz qs)))) = 1 ∧
      (step s (Event.mainResp (Except.ok (MainPayload.quiz qs)))).quizVisible = true ∧
      (step s (Event.mainResp (Except.ok (MainPayload.quiz qs)))).resultsVisible = true) ∧
    (∀ (s : AppState) (t : String), s.mainPending = some MainKind.summary →
      panelCount (step s (Event.mainResp (Except.ok (MainPayload.summary t)))) = 1 ∧
      (step s (Event.mainResp (Except.ok (MainPayload.summary t)))).summaryVisible = true ∧
      (step s (Event.mainResp (Except.ok (MainPayload.summary t)))).resultsVisible = true) ∧
    (∀ (s : AppState) (ts : List (String × Nat)), s.mainPending = some MainKind.topics →
      panelCount (step s (Event.mainResp (Except.ok (MainPayload.topics ts)))) = 1 ∧
      (step s (Event.mainResp (Except.ok (MainPayload.topics ts)))).topicsVisible = true ∧
      (step s (Event.mainResp (Except.ok (MainPayload.topics ts)))).resultsVisible = true) ∧
    (∀ (s : AppState) (v : VideoContext), s.loading = false → s.currentVideo = some v →
      panelCount (step s Event.clickStartChat) = 1 ∧
      (step s Event.clickStartChat).chatVisible = true ∧
      (step s Event.clickStartChat).resultsVisible = true) ∧
    (∀ (s : AppState) (e : Event), PanelInv s → PanelInv (step s e)) ∧
    PanelInv initState := by
  refine ⟨?_, ?_, ?_, ?_, panelInv_preserved, rfl⟩
  · intro s qs h
    simp [step, mainResponse, h, displayQuiz, showSuccess, panelCount]
  · intro s t h
    simp [step, mainResponse, h, displaySummary, showSuccess, panelCount]
  · intro s ts h
    simp [step, mainResponse, h, displayTopics, showSuccess, panelCount]
  · intro s v hl hv
    simp [step, hl, startChat, hv, showSuccess, panelCount]

/-- C7: in every reachable state the error and success banners are not both
visible and only the 5000 ms error-hide and 3000 ms success-hide timers are
ever scheduled; and a firing timer only ever hides a banner — it never
makes one visible. -/
theorem notifications_exclusive :
    (∀ evs : List Event, NotifInv (run evs)) ∧
    (∀ (s : AppState) (i : Nat),
      ((step s (Event.fireTimer i)).errVis = true → s.errVis = true) ∧
      ((step s (Event.fireTimer i)).sucVis = true → s.sucVis = true)) := by
  constructor
  · refine run_preserves NotifInv notifInv_preserved ⟨by decide, ?_⟩
    intro tm hm
    exact absurd hm (List.not_mem_nil tm)
  · intro s i
    constructor
    · simp only [step, fireTimer]
      split
      · exact fun hx => hx
      · split
        · simp
        · exact fun hx => hx
    · simp only [step, fireTimer]
      split
      · exact fun hx => hx
      · split
        · exact fun hx => hx
        · simp

end QuizGen
